import Mathlib

/-!
Shallow embedding of the `rust-and-polkadot-workshop` state machine
(`src/code/src/main.rs` and `src/code/src/balances.rs`), together with
theorems settling the specification claims.

Accounts are `&'static str` in the source; we embed them as `String`.
Balances are `u128`; we embed them as `Nat` together with the explicit
bound `U128_MAX`, and the `checked_add` / `checked_sub` operations of the
source become `Option`-valued functions that fail exactly at the `u128`
overflow / underflow boundary.  The `BTreeMap` state is embedded as a
function to `Option`, so that the distinction between "no entry" and
"entry with value zero" is preserved; `insert` overwrites one key.
Fallible methods taking `&mut self` become functions returning the new
state paired with an `Except String Unit`, mirroring the fact that a Rust
early return via `?` leaves the map untouched (all writes in `transfer`
happen after both checks).
-/

abbrev AccountId := String

/-- Embeds `u128::MAX`: the largest value a balance can take in the source. -/
def U128_MAX : Nat := 2 ^ 128 - 1

/-- Embeds `u128::checked_sub`: `none` exactly on underflow. -/
def checked_sub (a b : Nat) : Option Nat :=
  if b ≤ a then some (a - b) else none

/-- Embeds `u128::checked_add`: `none` exactly when the sum leaves the `u128` range. -/
def checked_add (a b : Nat) : Option Nat :=
  if a + b ≤ U128_MAX then some (a + b) else none

/-- The Balances module state: `balances: BTreeMap<AccountId, Balance>` (with `Balance = u128`)
(`src/code/src/balances.rs`, line 13), embedded as a partial map. -/
structure BalancesModule where
  balances : AccountId → Option Nat

/-- Embeds `BalancesModule::new` (`balances.rs`, lines 17-19): the empty map. -/
def BalancesModule.new : BalancesModule :=
  ⟨fun _ => none⟩

/-- Embeds `BalancesModule::set_balance` (`balances.rs`, lines 21-23):
`self.balances.insert(who, amount)`. -/
def BalancesModule.set_balance (m : BalancesModule) (who : AccountId) (amount : Nat) :
    BalancesModule :=
  ⟨fun k => if k = who then some amount else m.balances k⟩

/-- Embeds `BalancesModule::balance` (`balances.rs`, lines 25-27):
`*self.balances.get(&who).unwrap_or(&T::Balance::zero())`. -/
def BalancesModule.balance (m : BalancesModule) (who : AccountId) : Nat :=
  (m.balances who).getD 0

/-- Embeds `BalancesModule::transfer` (`balances.rs`, lines 29-45).  Both balances
are read first, then `checked_sub` / `checked_add` guard the two writes;
a failed check returns early (state unchanged) with the source's error
string.  The two `insert`s happen in source order: `from`, then `to`. -/
def BalancesModule.transfer (m : BalancesModule) (from_ to_ : AccountId) (amount : Nat) :
    BalancesModule × Except String Unit :=
  let from_balance := m.balance from_
  let to_balance := m.balance to_
  match checked_sub from_balance amount with
  | none => (m, .error "Not enough funds.")
  | some new_from_balance =>
    match checked_add to_balance amount with
    | none => (m, .error "Overflow")
    | some new_to_balance =>
      ((m.set_balance from_ new_from_balance).set_balance to_ new_to_balance, .ok ())

abbrev Content := String

/-- Modelled from the spec: `system.rs` is not under `src/`.  Spec §4.1
(Account Registry) describes a global block height and a per-account
nonce map; the counters are "unbounded counters assumed not to overflow
in practice", so they are embedded as `Nat`.  Absent nonce entries read
as 0 and reads create no entry. -/
structure SystemModule where
  block_number : Nat
  nonces : AccountId → Option Nat

/-- Modelled from the spec: fresh Account Registry, height 0, no nonces
(§3: the block number and every nonce "starts at 0"). -/
def SystemModule.new : SystemModule :=
  ⟨0, fun _ => none⟩

/-- Modelled from the spec (§4.1): "advances the global height by 1". -/
def SystemModule.inc_block_number (s : SystemModule) : SystemModule :=
  { s with block_number := s.block_number + 1 }

/-- Modelled from the spec (§4.1): "reads current nonce, defaulting to 0
for unseen accounts (pure, no entry created)". -/
def SystemModule.nonce (s : SystemModule) (who : AccountId) : Nat :=
  (s.nonces who).getD 0

/-- Modelled from the spec (§4.1): "advances that account's nonce by 1,
creating a zero-initialized entry if absent, then incrementing". -/
def SystemModule.inc_nonce (s : SystemModule) (who : AccountId) : SystemModule :=
  { s with nonces := fun k => if k = who then some (s.nonce who + 1) else s.nonces k }

/-- Modelled from the spec: `proof_of_existence.rs` is not under `src/`.
Spec §4.3 (Claim Registry): a map from content fingerprint to the owning
account. -/
structure POEModule where
  claims : Content → Option AccountId

/-- Modelled from the spec: fresh, empty Claim Registry. -/
def POEModule.new : POEModule :=
  ⟨fun _ => none⟩

/-- Modelled from the spec (§4.3): pure lookup. -/
def POEModule.get_claim (p : POEModule) (claim : Content) : Option AccountId :=
  p.claims claim

/-- Modelled from the spec (§4.3): "fails with `ClaimAlreadyExists` if the
claim key is already present; otherwise inserts (owner, claim)". -/
def POEModule.create_claim (p : POEModule) (caller : AccountId) (claim : Content) :
    POEModule × Except String Unit :=
  match p.claims claim with
  | some _ => (p, .error "ClaimAlreadyExists")
  | none => (⟨fun k => if k = claim then some caller else p.claims k⟩, .ok ())

/-- Modelled from the spec (§4.3): "fails with `ClaimNotFound` if absent;
fails with `NotClaimOwner` if the stored owner ≠ caller; otherwise
removes the entry". -/
def POEModule.revoke_claim (p : POEModule) (caller : AccountId) (claim : Content) :
    POEModule × Except String Unit :=
  match p.claims claim with
  | none => (p, .error "ClaimNotFound")
  | some owner =>
    if owner = caller then
      (⟨fun k => if k = claim then none else p.claims k⟩, .ok ())
    else
      (p, .error "NotClaimOwner")

/-- Embeds `balances::Call` / `BalancesCall` (`balances.rs`, lines 49-51): one
variant, `Transfer { to, amount }`. -/
inductive BalancesCall where
  | transfer (to_ : AccountId) (amount : Nat)

/-- Modelled from the spec: the Claim Registry's call union
(`proof_of_existence.rs` is not under `src/`; `main.rs` uses its
`create_claim` and `revoke_claim` variants, each carrying a claim). -/
inductive POECall where
  | create_claim (claim : Content)
  | revoke_claim (claim : Content)

/-- Embeds `RuntimeCall` (generated by `#[macros::runtime]` from `main.rs`,
lines 25-31): the outer tagged union, one variant per module, as used at
`main.rs` lines 91, 108, 126. -/
inductive RuntimeCall where
  | balances (call : BalancesCall)
  | proof_of_existence (call : POECall)

/-- Embeds `support::Header<BlockNumber>` (from `support.rs`, not under `src/`;
spec §3: "header: {block_number}"). -/
structure Header where
  block_number : Nat

/-- Embeds `support::Extrinsic<AccountId, RuntimeCall>` (from `support.rs`, not
under `src/`; spec §3: "an immutable pair (caller, call)"). -/
structure Extrinsic where
  caller : AccountId
  call : RuntimeCall

/-- Embeds `support::Block<BlockNumber, Extrinsic>` (from `support.rs`, not
under `src/`; spec §3: header plus ordered extrinsics). -/
structure Block where
  header : Header
  extrinsics : List Extrinsic

/-- Embeds `Runtime` (`main.rs`, lines 27-31): composes the three modules. -/
structure Runtime where
  system : SystemModule
  balances : BalancesModule
  proof_of_existence : POEModule

/-- Embeds `Runtime::new` (`main.rs`, lines 49-55). -/
def Runtime.new : Runtime :=
  ⟨SystemModule.new, BalancesModule.new, POEModule.new⟩

/-- Modelled from the spec: the `dispatch` impl is generated by
`#[macros::runtime]` and is not under `src/`.  Spec §2 data flow: "for
each extrinsic, Runtime increments the caller's nonce, then hands
(caller, call) to the Dispatcher → Dispatcher routes to the matching
module handler"; §4.5 step 3a: the nonce is incremented "always,
regardless of outcome", before the routed handler runs (§4.4: an
exhaustive two-level match forwarding caller and payload). -/
def Runtime.dispatch (r : Runtime) (caller : AccountId) (call : RuntimeCall) :
    Runtime × Except String Unit :=
  let r := { r with system := r.system.inc_nonce caller }
  match call with
  | .balances (.transfer to_ amount) =>
    let res := r.balances.transfer caller to_ amount
    ({ r with balances := res.1 }, res.2)
  | .proof_of_existence (.create_claim claim) =>
    let res := r.proof_of_existence.create_claim caller claim
    ({ r with proof_of_existence := res.1 }, res.2)
  | .proof_of_existence (.revoke_claim claim) =>
    let res := r.proof_of_existence.revoke_claim caller claim
    ({ r with proof_of_existence := res.1 }, res.2)

/-- The `for` loop of `Runtime::execute_block` (`main.rs`, lines 63-70):
dispatch each extrinsic in order; a per-extrinsic error is only reported
(`eprintln!`) and the loop continues with the state the failed dispatch
left behind. -/
def Runtime.dispatchAll (r : Runtime) (exs : List Extrinsic) : Runtime :=
  match exs with
  | [] => r
  | e :: rest => Runtime.dispatchAll (r.dispatch e.caller e.call).1 rest

/-- Embeds `Runtime::execute_block` (`main.rs`, lines 58-72): increment the
block number, reject the block (keeping the increment) when the header
number differs from the new height, otherwise dispatch every extrinsic
and return `Ok(())`. -/
def Runtime.execute_block (r : Runtime) (block : Block) : Runtime × Except String Unit :=
  let r := { r with system := r.system.inc_block_number }
  if block.header.block_number ≠ r.system.block_number then
    (r, .error "block number does not match what is expected")
  else
    (r.dispatchAll block.extrinsics, .ok ())

/-- Executing a sequence of blocks, keeping only the state (the reference
driver in `main.rs`, lines 141-143, panics on a block-level error; state
evolution is what the claims quantify over). -/
def Runtime.executeBlocks (r : Runtime) (bs : List Block) : Runtime :=
  match bs with
  | [] => r
  | b :: rest => Runtime.executeBlocks (r.execute_block b).1 rest

/-- A write operation on the Balances module: the two state-mutating
methods of `balances.rs` (`set_balance`, `transfer`), used to phrase
"account with no prior write" claims over arbitrary operation sequences. -/
inductive BalOp where
  | set_balance (who : AccountId) (amount : Nat)
  | transfer (from_ to_ : AccountId) (amount : Nat)

/-- Whether a write operation names the account `a` at all (as the
`set_balance` target, or as either end of a `transfer`). -/
def BalOp.touches (op : BalOp) (a : AccountId) : Bool :=
  match op with
  | .set_balance w _ => w == a
  | .transfer f t _ => f == a || t == a

/-- Run one write operation, keeping only the state (a failed `transfer`
leaves the map unchanged). -/
def BalancesModule.applyOp (m : BalancesModule) (op : BalOp) : BalancesModule :=
  match op with
  | .set_balance w amt => m.set_balance w amt
  | .transfer f t amt => (m.transfer f t amt).1

/-- Run a sequence of write operations in order. -/
def BalancesModule.applyOps (m : BalancesModule) (ops : List BalOp) : BalancesModule :=
  ops.foldl BalancesModule.applyOp m

/-- Number of extrinsics whose caller is `a` across a sequence of blocks
started at height `h`, counting only blocks that pass the header check
(`header.block_number` equal to the height after the increment); blocks
rejected at the gate dispatch nothing, but still advance the height. -/
def callerExtrinsicCount (a : AccountId) (h : Nat) (bs : List Block) : Nat :=
  match bs with
  | [] => 0
  | b :: rest =>
    (if b.header.block_number = h + 1 then
      (b.extrinsics.filter (fun e => e.caller == a)).length
    else 0) + callerExtrinsicCount a (h + 1) rest

/-- The genesis state of the reference run (`main.rs`, lines 79-82):
fresh runtime, alice seeded with balance 100 via `set_balance`. -/
def demoGenesis : Runtime :=
  { Runtime.new with balances := Runtime.new.balances.set_balance "alice" 100 }

/-- Embeds `block_1` of the reference run (`main.rs`, lines 86-101). -/
def demoBlock1 : Block :=
  ⟨⟨1⟩, [⟨"alice", .balances (.transfer "bob" 20)⟩,
         ⟨"alice", .balances (.transfer "charlie" 20)⟩]⟩

/-- Embeds `block_2` of the reference run (`main.rs`, lines 103-119). -/
def demoBlock2 : Block :=
  ⟨⟨2⟩, [⟨"alice", .proof_of_existence (.create_claim "Hello, world!")⟩,
         ⟨"bob", .proof_of_existence (.create_claim "Hello, world!")⟩]⟩

/-- Embeds `block_3` of the reference run (`main.rs`, lines 121-137). -/
def demoBlock3 : Block :=
  ⟨⟨3⟩, [⟨"alice", .proof_of_existence (.revoke_claim "Hello, world!")⟩,
         ⟨"bob", .proof_of_existence (.create_claim "Hello, world!")⟩]⟩

/-! ## General lemmas about `transfer`

The three exhaustive outcomes of `BalancesModule.transfer`, by the value
of the two checked operations. -/

theorem transfer_eq_insufficient (m : BalancesModule) (f t : AccountId) (a : Nat)
    (h : m.balance f < a) : m.transfer f t a = (m, .error "Not enough funds.") := by
  simp only [BalancesModule.transfer, checked_sub, checked_add]
  rw [if_neg (by omega)]

theorem transfer_eq_overflow (m : BalancesModule) (f t : AccountId) (a : Nat)
    (h1 : a ≤ m.balance f) (h2 : U128_MAX < m.balance t + a) :
    m.transfer f t a = (m, .error "Overflow") := by
  simp only [BalancesModule.transfer, checked_sub, checked_add]
  rw [if_pos h1, if_neg (by omega)]

theorem transfer_eq_ok (m : BalancesModule) (f t : AccountId) (a : Nat)
    (h1 : a ≤ m.balance f) (h2 : m.balance t + a ≤ U128_MAX) :
    m.transfer f t a =
      ((m.set_balance f (m.balance f - a)).set_balance t (m.balance t + a), .ok ()) := by
  simp only [BalancesModule.transfer, checked_sub, checked_add]
  rw [if_pos h1, if_pos h2]

theorem set_balance_balances (m : BalancesModule) (w : AccountId) (v : Nat) (k : AccountId) :
    (m.set_balance w v).balances k = if k = w then some v else m.balances k := rfl

theorem set_balance_balance (m : BalancesModule) (w : AccountId) (v : Nat) (k : AccountId) :
    (m.set_balance w v).balance k = if k = w then v else m.balance k := by
  simp only [BalancesModule.balance, set_balance_balances]
  split <;> rfl

/-- State frame of `transfer`: an account distinct from both ends keeps
its map entry, whether the transfer succeeds or fails. -/
theorem transfer_balances_frame (m : BalancesModule) (f t c : AccountId) (amt : Nat)
    (hcf : c ≠ f) (hct : c ≠ t) :
    ((m.transfer f t amt).1).balances c = m.balances c := by
  by_cases h1 : amt ≤ m.balance f
  · by_cases h2 : m.balance t + amt ≤ U128_MAX
    · rw [transfer_eq_ok m f t amt h1 h2]
      simp [set_balance_balances, hcf, hct]
    · rw [transfer_eq_overflow m f t amt h1 (by omega)]
  · rw [transfer_eq_insufficient m f t amt (by omega)]

/-- C4: a successful `transfer(a, b, amt)` with `a ≠ b` moves exactly
`amt` from `a` to `b`, so the two balances' sum — and hence total supply
— is conserved. -/
theorem transfer_ok_conservation (m : BalancesModule) (a b : AccountId) (amt : Nat)
    (hne : a ≠ b) (hok : (m.transfer a b amt).2 = .ok ()) :
    ((m.transfer a b amt).1).balance a + ((m.transfer a b amt).1).balance b
      = m.balance a + m.balance b ∧
    ((m.transfer a b amt).1).balance a = m.balance a - amt ∧
    ((m.transfer a b amt).1).balance b = m.balance b + amt := by
  by_cases h1 : amt ≤ m.balance a
  · by_cases h2 : m.balance b + amt ≤ U128_MAX
    · rw [transfer_eq_ok m a b amt h1 h2]
      refine ⟨?_, by simp [set_balance_balance, hne, Ne.symm hne],
        by simp [set_balance_balance, hne, Ne.symm hne]⟩
      simp [set_balance_balance, hne, Ne.symm hne]
      omega
    · rw [transfer_eq_overflow m a b amt h1 (by omega)] at hok
      simp at hok
  · rw [transfer_eq_insufficient m a b amt (by omega)] at hok
    simp at hok

/-- C5: a failed `transfer` leaves the balances map exactly as it was —
the checks precede both writes, so no partial write survives an error. -/
theorem transfer_err_atomicity (m : BalancesModule) (a b : AccountId) (amt : Nat) (e : String)
    (herr : (m.transfer a b amt).2 = .error e) : (m.transfer a b amt).1 = m := by
  by_cases h1 : amt ≤ m.balance a
  · by_cases h2 : m.balance b + amt ≤ U128_MAX
    · rw [transfer_eq_ok m a b amt h1 h2] at herr
      simp at herr
    · rw [transfer_eq_overflow m a b amt h1 (by omega)]
  · rw [transfer_eq_insufficient m a b amt (by omega)]

/-- C6: exhaustive characterization of `transfer`'s result: the
underflow check on the source runs first ("Not enough funds." exactly
when `amt` exceeds the source balance, regardless of the destination),
then the overflow check on the destination ("Overflow" exactly when the
source check passed but the destination sum leaves the `u128` range),
and otherwise the call returns `Ok(())`. -/
theorem transfer_result_characterization (m : BalancesModule) (a b : AccountId) (amt : Nat) :
    ((m.transfer a b amt).2 = .error "Not enough funds." ↔ m.balance a < amt) ∧
    ((m.transfer a b amt).2 = .error "Overflow" ↔
      amt ≤ m.balance a ∧ U128_MAX < m.balance b + amt) ∧
    ((m.transfer a b amt).2 = .ok () ↔
      amt ≤ m.balance a ∧ m.balance b + amt ≤ U128_MAX) := by
  by_cases h1 : amt ≤ m.balance a
  · by_cases h2 : m.balance b + amt ≤ U128_MAX
    · rw [transfer_eq_ok m a b amt h1 h2]
      refine ⟨?_, ?_, ?_⟩ <;> simp <;> omega
    · rw [transfer_eq_overflow m a b amt h1 (by omega)]
      refine ⟨?_, ?_, ?_⟩ <;> simp <;> omega
  · rw [transfer_eq_insufficient m a b amt (by omega)]
    refine ⟨?_, ?_, ?_⟩ <;> simp <;> omega

/-- C3: the claim that a self-transfer with `amount ≤ balance` succeeds
and leaves the balance unchanged fails on the code.  `transfer` reads
both balances before either write, and the later `insert` for `to`
overwrites the earlier `insert` for `from` when the two accounts
coincide, so `transfer("alice", "alice", 50)` from balance 100 succeeds
and mints 50: the final balance is 150, not 100.  This contradicts the
source's own purpose of "keeping track of how much balance each user
has" under conservation; recorded as a code bug at this failing input. -/
theorem self_transfer_mints_balance :
    (((BalancesModule.new.set_balance "alice" 100).transfer "alice" "alice" 50).2 = .ok ()) ∧
    ((((BalancesModule.new.set_balance "alice" 100).transfer "alice" "alice" 50).1).balance
      "alice" = 150) :=
  ⟨rfl, by decide⟩

theorem applyOp_untouched (m : BalancesModule) (op : BalOp) (a : AccountId)
    (h : op.touches a = false) : (m.applyOp op).balances a = m.balances a := by
  cases op with
  | set_balance w amt =>
    simp only [BalOp.touches, beq_eq_false_iff_ne, ne_eq] at h
    simp [BalancesModule.applyOp, set_balance_balances, Ne.symm h]
  | transfer f t amt =>
    simp only [BalOp.touches, Bool.or_eq_false_iff, beq_eq_false_iff_ne, ne_eq] at h
    exact transfer_balances_frame m f t a amt (Ne.symm h.1) (Ne.symm h.2)

theorem applyOps_untouched (ops : List BalOp) (m : BalancesModule) (a : AccountId)
    (h : ∀ op ∈ ops, op.touches a = false) :
    (m.applyOps ops).balances a = m.balances a := by
  induction ops generalizing m with
  | nil => rfl
  | cons op rest ih =>
    calc (m.applyOps (op :: rest)).balances a
        = ((m.applyOp op).applyOps rest).balances a := rfl
      _ = (m.applyOp op).balances a :=
          ih _ (fun op' h' => h op' (List.mem_cons_of_mem _ h'))
      _ = m.balances a := applyOp_untouched m op a (h op (List.mem_cons_self _ _))

/-- C8: an account that no `set_balance` and no `transfer` ever touched
still has no entry in the balances map after any sequence of writes to
other accounts (reads never create entries), and its `balance` reads as
zero. -/
theorem unwritten_account_balance_zero (ops : List BalOp) (a : AccountId)
    (h : ∀ op ∈ ops, op.touches a = false) :
    (BalancesModule.new.applyOps ops).balances a = none ∧
    (BalancesModule.new.applyOps ops).balance a = 0 := by
  have h2 := applyOps_untouched ops BalancesModule.new a h
  refine ⟨h2, ?_⟩
  simp [BalancesModule.balance, h2]
  rfl

/-- Witness for C8 at a concrete input: writes touching only bob and
carol leave alice entry-less with balance 0. -/
theorem unwritten_account_balance_zero_witness :
    (BalancesModule.new.applyOps
        [BalOp.set_balance "bob" 5, BalOp.transfer "bob" "carol" 2]).balances "alice" = none ∧
    (BalancesModule.new.applyOps
        [BalOp.set_balance "bob" 5, BalOp.transfer "bob" "carol" 2]).balance "alice" = 0 :=
  unwritten_account_balance_zero
    [BalOp.set_balance "bob" 5, BalOp.transfer "bob" "carol" 2] "alice" (by decide)

/-- C9: `transfer` writes at most the entries of its two end accounts:
any third account keeps both its exact map entry and its read balance,
whether the transfer succeeds or fails. -/
theorem transfer_untouched_account_frame (m : BalancesModule) (f t c : AccountId) (amt : Nat)
    (hcf : c ≠ f) (hct : c ≠ t) :
    ((m.transfer f t amt).1).balances c = m.balances c ∧
    ((m.transfer f t amt).1).balance c = m.balance c := by
  have h := transfer_balances_frame m f t c amt hcf hct
  exact ⟨h, by simp [BalancesModule.balance, h]⟩

/-- Witness for C9 at a concrete input: carol's entry survives a
successful alice-to-bob transfer. -/
theorem transfer_untouched_account_frame_witness :
    ((((BalancesModule.new.set_balance "alice" 10).set_balance "carol" 7).transfer
        "alice" "bob" 5).1).balances "carol"
      = ((BalancesModule.new.set_balance "alice" 10).set_balance "carol" 7).balances "carol" ∧
    ((((BalancesModule.new.set_balance "alice" 10).set_balance "carol" 7).transfer
        "alice" "bob" 5).1).balance "carol"
      = ((BalancesModule.new.set_balance "alice" 10).set_balance "carol" 7).balance "carol" :=
  transfer_untouched_account_frame
    ((BalancesModule.new.set_balance "alice" 10).set_balance "carol" 7)
    "alice" "bob" "carol" 5 (by decide) (by decide)

/-- C10: a zero-amount transfer always succeeds (given the `u128`
representability of the stored destination balance, automatic in the
source), changes no readable balance, and materializes explicit map
entries for both end accounts at their current values — turning "never
written" into "written as zero" for previously absent accounts. -/
theorem transfer_zero_ok_writes_entries (m : BalancesModule) (a b : AccountId)
    (hb : m.balance b ≤ U128_MAX) :
    (m.transfer a b 0).2 = .ok () ∧
    (∀ c, ((m.transfer a b 0).1).balance c = m.balance c) ∧
    ((m.transfer a b 0).1).balances a = some (m.balance a) ∧
    ((m.transfer a b 0).1).balances b = some (m.balance b) := by
  have key := transfer_eq_ok m a b 0 (Nat.zero_le _) (by omega)
  rw [key]
  refine ⟨rfl, ?_, ?_, ?_⟩
  · intro c
    by_cases hcb : c = b
    · subst hcb; simp [set_balance_balance]
    · by_cases hca : c = a
      · subst hca; simp [set_balance_balance, hcb]
      · simp [set_balance_balance, hca, hcb]
  · by_cases hab : a = b
    · subst hab; simp [set_balance_balances]
    · simp [set_balance_balances, hab]
  · simp [set_balance_balances]

/-- Witness for C10 at a concrete input: a zero transfer from alice to
the never-written bob succeeds, preserves both balances, and creates an
explicit zero entry for bob. -/
theorem transfer_zero_ok_writes_entries_witness :
    ((BalancesModule.new.set_balance "alice" 100).transfer "alice" "bob" 0).2 = .ok () ∧
    (((BalancesModule.new.set_balance "alice" 100).transfer "alice" "bob" 0).1).balance "alice"
      = (BalancesModule.new.set_balance "alice" 100).balance "alice" ∧
    (((BalancesModule.new.set_balance "alice" 100).transfer "alice" "bob" 0).1).balances "bob"
      = some 0 :=
  have h := transfer_zero_ok_writes_entries
    (BalancesModule.new.set_balance "alice" 100) "alice" "bob" (by decide)
  ⟨h.1, h.2.1 "alice", h.2.2.2⟩

/-- Witness for C4 at a concrete input: a successful transfer of 30 from
alice (100) to bob (0) conserves the sum of the two balances. -/
theorem transfer_ok_conservation_witness :
    (((BalancesModule.new.set_balance "alice" 100).transfer "alice" "bob" 30).1).balance "alice"
        + (((BalancesModule.new.set_balance "alice" 100).transfer "alice" "bob" 30).1).balance
          "bob"
      = (BalancesModule.new.set_balance "alice" 100).balance "alice"
        + (BalancesModule.new.set_balance "alice" 100).balance "bob" ∧
    (((BalancesModule.new.set_balance "alice" 100).transfer "alice" "bob" 30).1).balance "alice"
      = (BalancesModule.new.set_balance "alice" 100).balance "alice" - 30 ∧
    (((BalancesModule.new.set_balance "alice" 100).transfer "alice" "bob" 30).1).balance "bob"
      = (BalancesModule.new.set_balance "alice" 100).balance "bob" + 30 :=
  transfer_ok_conservation (BalancesModule.new.set_balance "alice" 100) "alice" "bob" 30
    (by decide) rfl

/-- Witness for C5 at a concrete input: a failed transfer (insufficient
funds) leaves the module state untouched. -/
theorem transfer_err_atomicity_witness :
    (BalancesModule.new.transfer "alice" "bob" 1).1 = BalancesModule.new :=
  transfer_err_atomicity BalancesModule.new "alice" "bob" 1 "Not enough funds." rfl

/-- C1: a block whose header number is not exactly the incremented
height is rejected with the block-number-mismatch error before any
extrinsic is dispatched — balances, claims and nonces are all unchanged
— yet the height increment from step 1 is kept: the height still
advances by 1. -/
theorem execute_block_mismatch (r : Runtime) (block : Block)
    (h : block.header.block_number ≠ r.system.block_number + 1) :
    (r.execute_block block).2 = .error "block number does not match what is expected" ∧
    (r.execute_block block).1.balances = r.balances ∧
    (r.execute_block block).1.proof_of_existence = r.proof_of_existence ∧
    (r.execute_block block).1.system.nonces = r.system.nonces ∧
    (r.execute_block block).1.system.block_number = r.system.block_number + 1 := by
  simp [Runtime.execute_block, SystemModule.inc_block_number, h]

/-- Witness for C1 at a concrete input: executing the reference run's
second block first (header 2 against height 0) fails but still bumps
the height to 1. -/
theorem execute_block_mismatch_witness :
    (Runtime.new.execute_block demoBlock2).2
      = .error "block number does not match what is expected" ∧
    (Runtime.new.execute_block demoBlock2).1.balances = Runtime.new.balances ∧
    (Runtime.new.execute_block demoBlock2).1.proof_of_existence
      = Runtime.new.proof_of_existence ∧
    (Runtime.new.execute_block demoBlock2).1.system.nonces = Runtime.new.system.nonces ∧
    (Runtime.new.execute_block demoBlock2).1.system.block_number
      = Runtime.new.system.block_number + 1 :=
  execute_block_mismatch Runtime.new demoBlock2 (by decide)

/-- C2: once the header check passes, `execute_block` returns `Ok(())`
unconditionally and its final state is the in-order fold of `dispatch`
over the block's extrinsics — each dispatch result is only reported, so
a failing extrinsic neither aborts the loop, nor rolls anything back,
nor reaches the value `execute_block` returns. -/
theorem execute_block_header_ok (r : Runtime) (block : Block)
    (h : block.header.block_number = r.system.block_number + 1) :
    (r.execute_block block).2 = .ok () ∧
    (r.execute_block block).1
      = Runtime.dispatchAll { r with system := r.system.inc_block_number }
          block.extrinsics := by
  simp [Runtime.execute_block, SystemModule.inc_block_number, h]

/-- Witness for C2 at a concrete input: the reference run's first block,
executed from the fresh runtime (so both its transfers fail with
insufficient funds), is still accepted: the block-level result is
`Ok(())`. -/
theorem execute_block_header_ok_witness :
    (Runtime.new.execute_block demoBlock1).2 = .ok () ∧
    (Runtime.new.execute_block demoBlock1).1
      = Runtime.dispatchAll
          { Runtime.new with system := Runtime.new.system.inc_block_number }
          demoBlock1.extrinsics :=
  execute_block_header_ok Runtime.new demoBlock1 (by decide)

theorem inc_nonce_nonce (s : SystemModule) (c a : AccountId) :
    (s.inc_nonce c).nonce a = if a = c then s.nonce a + 1 else s.nonce a := by
  by_cases hac : a = c
  · subst hac; simp [SystemModule.inc_nonce, SystemModule.nonce]
  · simp [SystemModule.inc_nonce, SystemModule.nonce, hac]

theorem dispatch_system_nonces (r : Runtime) (c : AccountId) (call : RuntimeCall) :
    ((r.dispatch c call).1).system = r.system.inc_nonce c := by
  cases call with
  | balances bc => cases bc with
    | transfer t amt => rfl
  | proof_of_existence pc => cases pc with
    | create_claim claim => rfl
    | revoke_claim claim => rfl

theorem dispatch_nonce (r : Runtime) (c : AccountId) (call : RuntimeCall) (a : AccountId) :
    ((r.dispatch c call).1).system.nonce a
      = if a = c then r.system.nonce a + 1 else r.system.nonce a := by
  rw [dispatch_system_nonces, inc_nonce_nonce]

theorem dispatch_block_number (r : Runtime) (c : AccountId) (call : RuntimeCall) :
    ((r.dispatch c call).1).system.block_number = r.system.block_number := by
  rw [dispatch_system_nonces]; rfl

theorem dispatchAll_nonce (exs : List Extrinsic) (r : Runtime) (a : AccountId) :
    (r.dispatchAll exs).system.nonce a
      = r.system.nonce a + (exs.filter (fun e => e.caller == a)).length := by
  induction exs generalizing r with
  | nil => rfl
  | cons e rest ih =>
    rw [show r.dispatchAll (e :: rest) = ((r.dispatch e.caller e.call).1).dispatchAll rest
      from rfl, ih, dispatch_nonce, List.filter_cons]
    by_cases h : e.caller = a
    · simp [h]
      omega
    · have h2 : a ≠ e.caller := fun hh => h hh.symm
      simp [h, h2]

theorem dispatchAll_block_number (exs : List Extrinsic) (r : Runtime) :
    (r.dispatchAll exs).system.block_number = r.system.block_number := by
  induction exs generalizing r with
  | nil => rfl
  | cons e rest ih =>
    rw [show r.dispatchAll (e :: rest) = ((r.dispatch e.caller e.call).1).dispatchAll rest
      from rfl, ih, dispatch_block_number]

theorem execute_block_nonce (r : Runtime) (block : Block) (a : AccountId) :
    ((r.execute_block block).1).system.nonce a
      = r.system.nonce a
        + (if block.header.block_number = r.system.block_number + 1 then
            (block.extrinsics.filter (fun e => e.caller == a)).length
          else 0) := by
  by_cases h : block.header.block_number = r.system.block_number + 1
  · simp only [Runtime.execute_block, SystemModule.inc_block_number]
    rw [if_neg (by simpa using h), dispatchAll_nonce, if_pos h]
    rfl
  · simp only [Runtime.execute_block, SystemModule.inc_block_number]
    rw [if_pos (by simpa using h), if_neg h]
    rfl

theorem execute_block_height (r : Runtime) (block : Block) :
    ((r.execute_block block).1).system.block_number = r.system.block_number + 1 := by
  by_cases h : block.header.block_number = r.system.block_number + 1
  · simp only [Runtime.execute_block, SystemModule.inc_block_number]
    rw [if_neg (by simpa using h), dispatchAll_block_number]
  · simp only [Runtime.execute_block, SystemModule.inc_block_number]
    rw [if_pos (by simpa using h)]

theorem executeBlocks_nonce (bs : List Block) (r : Runtime) (a : AccountId) :
    (r.executeBlocks bs).system.nonce a
      = r.system.nonce a + callerExtrinsicCount a r.system.block_number bs := by
  induction bs generalizing r with
  | nil => rfl
  | cons b rest ih =>
    rw [show r.executeBlocks (b :: rest) = ((r.execute_block b).1).executeBlocks rest
      from rfl, ih, execute_block_nonce, execute_block_height]
    show _ = _ + callerExtrinsicCount a r.system.block_number (b :: rest)
    rw [callerExtrinsicCount]
    omega

/-- C7: the caller's nonce is incremented exactly once per dispatched
extrinsic, before the call and independent of its outcome: an account
starting at nonce 0 ends at exactly the number of extrinsics it was the
caller of across the executed blocks (blocks rejected at the header gate
dispatch none of their extrinsics). -/
theorem nonce_counts_extrinsics (r : Runtime) (bs : List Block) (a : AccountId)
    (h : r.system.nonce a = 0) :
    (r.executeBlocks bs).system.nonce a
      = callerExtrinsicCount a r.system.block_number bs := by
  rw [executeBlocks_nonce, h, Nat.zero_add]

/-- Witness for C7 at a concrete input: across the three blocks of the
reference run, alice is the caller of 4 extrinsics (one of which fails)
and ends with nonce 4. -/
theorem nonce_counts_extrinsics_witness :
    (demoGenesis.executeBlocks [demoBlock1, demoBlock2, demoBlock3]).system.nonce "alice"
      = callerExtrinsicCount "alice" demoGenesis.system.block_number
          [demoBlock1, demoBlock2, demoBlock3] :=
  nonce_counts_extrinsics demoGenesis [demoBlock1, demoBlock2, demoBlock3] "alice" (by decide)

/-! ## The reference run of `main.rs`, replayed through the embedding -/

example :
    (demoGenesis.executeBlocks [demoBlock1, demoBlock2, demoBlock3]).balances.balance "alice"
      = 60 := by decide

example :
    (demoGenesis.executeBlocks [demoBlock1, demoBlock2, demoBlock3]).balances.balance "bob"
      = 20 := by decide

example :
    (demoGenesis.executeBlocks [demoBlock1, demoBlock2, demoBlock3]).balances.balance "charlie"
      = 20 := by decide

example :
    (demoGenesis.executeBlocks
        [demoBlock1, demoBlock2, demoBlock3]).proof_of_existence.get_claim "Hello, world!"
      = some "bob" := by decide

example :
    (demoGenesis.executeBlocks [demoBlock1, demoBlock2, demoBlock3]).system.block_number
      = 3 := by decide

example :
    (demoGenesis.executeBlocks [demoBlock1, demoBlock2, demoBlock3]).system.nonce "alice"
      = 4 := by decide

example :
    (demoGenesis.executeBlocks [demoBlock1, demoBlock2, demoBlock3]).system.nonce "bob"
      = 2 := by decide

example :
    callerExtrinsicCount "alice" 0 [demoBlock1, demoBlock2, demoBlock3] = 4 := by decide
